import Mathlib

/-!
# Verification of the Pokémon detail screen (`src/app/details.tsx`)

Shallow embedding of the detail screen's pure core: the palette, the
pastelization of colors, the view-model derivation (hero image, forms list,
type badges, stat rows, padded id) and the fetch state transition.

Modelling conventions for the TypeScript source:
* JS numbers that only ever hold integers are `Nat`/`Int`; fractional
  arithmetic (mix ratios, stat ratios) is modelled exactly over `ℚ`.
* `Math.round` rounds half toward positive infinity, which is exactly
  Mathlib's `round` on `ℚ` (`round x = ⌊x + 1/2⌋`).
* `a ?? b` (nullish coalescing) on an optional value is `Option.getD` /
  a `match` on `Option`; it falls through only on `null`/`undefined`.
* `!!s` on `s : string | null` is JS truthiness: `false` exactly on `null`
  and on the empty string.
* `String.prototype.replace(pat, rep)` with a string pattern replaces only
  the FIRST occurrence of `pat`.
-/

namespace Pokedex

/-- JSON field `stats[i].stat` / `types[i].type`: a named reference. -/
structure NamedRef where
  name : String
deriving DecidableEq, Repr

/-- One element of the payload's `types` array; the JSON field `type` is a
Lean keyword, rendered here as `type'`. -/
structure TypeEntry where
  type' : NamedRef
deriving DecidableEq, Repr

/-- One element of the payload's `stats` array. -/
structure StatEntry where
  base_stat : Nat
  stat : NamedRef
deriving DecidableEq, Repr

/-- `sprites.other["official-artwork"]` from the payload. -/
structure OfficialArtwork where
  front_default : Option String
deriving DecidableEq, Repr

/-- `sprites.other` from the payload; the JSON key `official-artwork` is not
a legal Lean name, rendered here as `officialArtwork`. -/
structure SpritesOther where
  officialArtwork : Option OfficialArtwork
deriving DecidableEq, Repr

/-- The payload's `sprites` object (`details.tsx` lines 18–24): every image
slot is a nullable URL string. -/
structure Sprites where
  front_default : Option String
  front_shiny : Option String
  other : Option SpritesOther
deriving DecidableEq, Repr

/-- The decoded API payload `PokemonDetails` (`details.tsx` lines 13–27). -/
structure PokemonDetails where
  id : Nat
  name : String
  height : Nat
  weight : Nat
  sprites : Sprites
  types : List TypeEntry
  stats : List StatEntry
deriving DecidableEq, Repr

/-- The palette `colorsByType` (`details.tsx` lines 29–48): 18 type names
mapped to base hex colors; a missing key is `none` (JS `undefined`). -/
def colorsByType (t : String) : Option String :=
  List.lookup t
    [("normal", "#A8A77A"), ("fire", "#EE8130"), ("water", "#6390F0"),
     ("electric", "#F7D02C"), ("grass", "#7AC74C"), ("ice", "#96D9D6"),
     ("fighting", "#C22E28"), ("poison", "#A33EA1"), ("ground", "#E2BF65"),
     ("flying", "#A98FF3"), ("psychic", "#F95587"), ("bug", "#A6B91A"),
     ("rock", "#B6A136"), ("ghost", "#735797"), ("dragon", "#6F35FC"),
     ("dark", "#705746"), ("steel", "#B7B7CE"), ("fairy", "#D685AD")]

/-- The fixed tab set `TABS` (`details.tsx` line 50). -/
inductive Tab where
  | forms
  | detail
  | types
  | stats
deriving DecidableEq, Repr

/-- `pad3` (`details.tsx` lines 56–58): `String(n).padStart(3, "0")`.
`padStart` prepends the fill character until the minimum length is reached;
a string already at least that long is returned unchanged. -/
def pad3 (n : Nat) : String :=
  ⟨List.replicate (3 - (Nat.repr n).length) '0'⟩ ++ Nat.repr n

/-- Value of one hexadecimal digit, as consumed by `parseInt(clean, 16)`;
every character the program ever passes is a valid hex digit. -/
def hexDigitVal (c : Char) : Nat :=
  if '0' ≤ c ∧ c ≤ '9' then c.toNat - 48
  else if 'a' ≤ c ∧ c ≤ 'f' then c.toNat - 87
  else if 'A' ≤ c ∧ c ≤ 'F' then c.toNat - 55
  else 0

/-- `parseInt(s, 16)` on a string of hex digits. -/
def parseHexNat (s : String) : Nat :=
  s.data.foldl (fun acc c => acc * 16 + hexDigitVal c) 0

/-- `hex.replace("#", "")`: JS `replace` with a string pattern removes only
the first occurrence of `"#"`. -/
def removeFirstHash : List Char → List Char
  | [] => []
  | c :: cs => if c = '#' then cs else c :: removeFirstHash cs

/-- `hexToRgb` (`details.tsx` lines 61–65): strip the `#`, parse base 16,
split into channels by shift and mask. -/
def hexToRgb (hex : String) : Nat × Nat × Nat :=
  let num := parseHexNat ⟨removeFirstHash hex.data⟩
  ((num >>> 16) &&& 255, (num >>> 8) &&& 255, num &&& 255)

/-- One channel of `pastel` (`details.tsx` lines 68–70):
`Math.round(c + (255 - c) * mix)`, computed exactly over `ℚ`. -/
def pastelChannel (c : Nat) (m : ℚ) : ℤ :=
  round ((c : ℚ) + ((255 : ℚ) - (c : ℚ)) * m)

/-- The `rgb(R, G, B)` result string of `pastel` (`details.tsx` line 71). -/
def rgbString (r g b : ℤ) : String :=
  "rgb(" ++ toString r ++ ", " ++ toString g ++ ", " ++ toString b ++ ")"

/-- `pastel` (`details.tsx` lines 66–72): parse the hex color, mix every
channel toward white by ratio `m`, format as an `rgb(...)` string. -/
def pastel (hex : String) (m : ℚ) : String :=
  let rgb := hexToRgb hex
  rgbString (pastelChannel rgb.1 m) (pastelChannel rgb.2.1 m)
    (pastelChannel rgb.2.2 m)

/-- `primaryType` (`details.tsx` line 101):
`pokemon?.types?.[0]?.type?.name ?? "normal"`, at payload level. -/
def primaryType (p : PokemonDetails) : String :=
  match p.types with
  | [] => "normal"
  | t :: _ => t.type'.name

/-- `primaryHex` (`details.tsx` line 102):
`colorsByType[primaryType] ?? "#A8A77A"`. -/
def primaryHex (p : PokemonDetails) : String :=
  (colorsByType (primaryType p)).getD "#A8A77A"

/-- `pageBg` (`details.tsx` line 104): `pastel(primaryHex, 0.86)`. -/
def pageBg (p : PokemonDetails) : String :=
  pastel (primaryHex p) (86 / 100)

/-- `heroBg` (`details.tsx` line 105): `pastel(primaryHex, 0.72)`. -/
def heroBg (p : PokemonDetails) : String :=
  pastel (primaryHex p) (72 / 100)

/-- `chipBg` (`details.tsx` line 106): `pastel(primaryHex, 0.6)`. -/
def chipBg (p : PokemonDetails) : String :=
  pastel (primaryHex p) (60 / 100)

/-- The optional chain
`pokemon?.sprites?.other?.["official-artwork"]?.front_default ?? null`. -/
def officialArtworkUrl (p : PokemonDetails) : Option String :=
  match p.sprites.other with
  | none => none
  | some o =>
    match o.officialArtwork with
    | none => none
    | some a => a.front_default

/-- `heroImage` (`details.tsx` lines 108–111): official-artwork URL, else
the default front sprite, else `null`; `??` falls through only on null. -/
def heroImage (p : PokemonDetails) : Option String :=
  match officialArtworkUrl p with
  | some u => some u
  | none => p.sprites.front_default

/-- One element of the `forms` candidate list (`details.tsx` lines 114–130). -/
structure FormItem where
  key : String
  label : String
  uri : Option String
deriving DecidableEq, Repr

/-- The three candidate slots of `forms`, in source order with their labels
(`details.tsx` lines 114–130). -/
def formCandidates (p : PokemonDetails) : List FormItem :=
  [⟨"default", "Default", p.sprites.front_default⟩,
   ⟨"shiny", "Shiny", p.sprites.front_shiny⟩,
   ⟨"art", "Artwork", officialArtworkUrl p⟩]

/-- JS truthiness of a nullable string, as tested by `!!x.uri`
(`details.tsx` line 131): `null` and the empty string are falsy. -/
def truthyStr : Option String → Bool
  | none => false
  | some s => !(s == "")

/-- `forms` (`details.tsx` lines 113–133): the candidates filtered by
`(x) => !!x.uri`. -/
def forms (p : PokemonDetails) : List FormItem :=
  (formCandidates p).filter (fun x => truthyStr x.uri)

/-- Color of the chip for type name `t` (`details.tsx` lines 170, 285):
`colorsByType[type] ?? primaryHex`. -/
def badgeHex (p : PokemonDetails) (t : String) : String :=
  (colorsByType t).getD (primaryHex p)

/-- One rendered type chip: its text color is the looked-up hex, its
background `pastel(hex, 0.65)` (`details.tsx` lines 168–184). -/
structure TypeBadge where
  typeName : String
  textColor : String
  backgroundColor : String
deriving DecidableEq, Repr

/-- The rendered list of type chips (`details.tsx` lines 168–184): one per
element of `types`, in order. -/
def typeBadges (p : PokemonDetails) : List TypeBadge :=
  p.types.map (fun e =>
    ⟨e.type'.name, badgeHex p e.type'.name,
     pastel (badgeHex p e.type'.name) (65 / 100)⟩)

/-- `s.stat.name.replace("-", " ")` (`details.tsx` line 311): JS `replace`
with a string pattern replaces only the first occurrence. -/
def replaceFirstHyphen : List Char → List Char
  | [] => []
  | c :: cs => if c = '-' then ' ' :: cs else c :: replaceFirstHyphen cs

/-- The displayed stat label (`details.tsx` line 311). -/
def statLabel (s : String) : String :=
  ⟨replaceFirstHyphen s.data⟩

/-- The stat bar width percentage (`details.tsx` line 318):
`Math.min(100, (base_stat / 200) * 100)`, exact over `ℚ`. -/
def statFillPercent (v : Nat) : ℚ :=
  min 100 ((v : ℚ) / 200 * 100)

/-- One rendered stat row (`details.tsx` lines 308–326): React `key` is the
verbatim stat name, the label has its first hyphen replaced by a space, the
bar width is the clamped percentage. -/
structure StatRow where
  key : String
  label : String
  value : Nat
  fillPercent : ℚ
deriving DecidableEq, Repr

/-- Derivation of one stat row from a payload stat entry. -/
def statRow (e : StatEntry) : StatRow :=
  ⟨e.stat.name, statLabel e.stat.name, e.base_stat,
   statFillPercent e.base_stat⟩

/-- The rendered stat rows, in payload order (`details.tsx` lines 308–326). -/
def statRows (p : PokemonDetails) : List StatRow :=
  p.stats.map statRow

/-! ## Fetch state machine

The component's state slots are exactly `pokemon : PokemonDetails | null`,
`loading : boolean` and `tab : Tab` (`details.tsx` lines 78–80). There is no
error slot of any kind. -/

/-- The component state (`details.tsx` lines 78–80). -/
structure ScreenState where
  pokemon : Option PokemonDetails
  loading : Bool
  tab : Tab
deriving DecidableEq, Repr

/-- `useState(null) / useState(false) / useState("Forms")`. -/
def initialState : ScreenState :=
  ⟨none, false, Tab.forms⟩

/-- Outcome of the awaited `fetch` + `res.json()`: a decoded payload, or a
thrown network/decoding error. -/
inductive FetchResult where
  | success (data : PokemonDetails)
  | failure
deriving DecidableEq, Repr

/-- The net state transition of one complete run of `fetchPokemonByName`
(`details.tsx` lines 88–99): `setLoading(true)`, await; on success
`setPokemon(data)`; on a thrown error only `console.log(e)` — no state slot
is written in the catch; `finally` runs `setLoading(false)`. -/
def fetchPokemonByName (s : ScreenState) (r : FetchResult) : ScreenState :=
  match r with
  | FetchResult.success data => { s with pokemon := some data, loading := false }
  | FetchResult.failure => { s with loading := false }

/-- What the content area renders (`details.tsx` lines 215–330). -/
inductive Content where
  | loadingIndicator
  | tabs (p : PokemonDetails)
  | blank
deriving DecidableEq, Repr

/-- The content area (`details.tsx` lines 215–330): `loading` shows the
spinner; `!loading && pokemon` shows the tabbed content; otherwise nothing
is rendered. -/
def renderContent (s : ScreenState) : Content :=
  if s.loading then Content.loadingIndicator
  else
    match s.pokemon with
    | some p => Content.tabs p
    | none => Content.blank

/-- The error text the screen shows in state `s`. The component's state has
no error slot (`details.tsx` lines 78–80) and its render tree (lines
135–333) contains no error text in any branch: a caught fetch error is only
logged to the console (line 95). So no state ever surfaces an error
string. -/
def surfacedErrorText (_ : ScreenState) : Option String :=
  none

/-! ## Spec-side definitions (for refutation by comparison)

These two definitions follow the SPEC's words, not the source, and exist
only to be compared with the source-derived definitions above. -/

/-- Modelled from the spec: "stat name display replaces internal separator
characters (e.g. hyphens) with spaces" — i.e. EVERY hyphen replaced. -/
def spec_replaceAllHyphens (s : String) : String :=
  ⟨s.data.map (fun c => if c = '-' then ' ' else c)⟩

/-- Modelled from the spec: "keep only those with a non-null URL" — i.e. the
candidates filtered by URL presence alone (no emptiness test). -/
def spec_formsNonNull (p : PokemonDetails) : List FormItem :=
  (formCandidates p).filter (fun x => x.uri.isSome)

/-- Modelled from the spec: "each channel becomes
round(channel + (255 - channel) * m)". -/
def spec_mixChannel (c : Nat) (m : ℚ) : ℤ :=
  round ((c : ℚ) + ((255 : ℚ) - (c : ℚ)) * m)

/-! ## Concrete fixtures used by witnesses and counterexamples -/

/-- A well-formed payload: every sprite slot set, one type, two stats. -/
def samplePokemon : PokemonDetails :=
  ⟨25, "pikachu", 4, 60,
   ⟨some "d.png", some "s.png", some ⟨some ⟨some "a.png"⟩⟩⟩,
   [⟨⟨"electric"⟩⟩],
   [⟨45, ⟨"hp"⟩⟩, ⟨220, ⟨"speed"⟩⟩]⟩

/-- A payload whose second type name is not in the palette. -/
def dualTypePokemon : PokemonDetails :=
  ⟨6, "x", 0, 0, ⟨none, none, none⟩, [⟨⟨"fire"⟩⟩, ⟨⟨"mystery"⟩⟩], []⟩

/-- A payload with an empty `types` list. -/
def emptyTypesPokemon : PokemonDetails :=
  ⟨1, "y", 0, 0, ⟨none, none, none⟩, [], []⟩

/-- A payload whose only non-null sprite slot holds the empty string. -/
def emptyShinyPokemon : PokemonDetails :=
  ⟨1, "z", 0, 0, ⟨none, some "", none⟩, [], []⟩

/-- A payload where only `front_default` is set, to the empty string. -/
def emptyDefaultPokemon : PokemonDetails :=
  ⟨1, "w", 0, 0, ⟨some "", none, none⟩, [], []⟩

/-- A payload where only `front_default` is set, to a non-empty URL. -/
def defaultOnlyPokemon : PokemonDetails :=
  ⟨7, "q", 0, 0, ⟨some "d.png", none, none⟩, [], []⟩

/-! ## Helper lemmas -/

theorem round_mono_rat {x y : ℚ} (h : x ≤ y) : round x ≤ round y := by
  rw [round_eq, round_eq]
  exact Int.floor_le_floor (by linarith)

theorem pastelChannel_mono (c : Nat) (hc : c ≤ 255) {m₁ m₂ : ℚ}
    (h : m₁ ≤ m₂) : pastelChannel c m₁ ≤ pastelChannel c m₂ := by
  unfold pastelChannel
  apply round_mono_rat
  have hc' : (c : ℚ) ≤ 255 := by exact_mod_cast hc
  nlinarith

theorem pastelChannel_zero (c : Nat) : pastelChannel c 0 = (c : ℤ) := by
  unfold pastelChannel
  rw [mul_zero, add_zero, round_natCast]

theorem pastelChannel_one (c : Nat) : pastelChannel c 1 = 255 := by
  unfold pastelChannel
  have h : (c : ℚ) + ((255 : ℚ) - (c : ℚ)) * 1 = ((255 : ℕ) : ℚ) := by
    push_cast
    ring
  rw [h, round_natCast]
  rfl

theorem pastelChannel_le_255 (c : Nat) (hc : c ≤ 255) {m : ℚ}
    (hm : m ≤ 1) : pastelChannel c m ≤ 255 := by
  calc pastelChannel c m ≤ pastelChannel c 1 := pastelChannel_mono c hc hm
    _ = 255 := pastelChannel_one c

theorem hexToRgb_le_255 (hex : String) :
    (hexToRgb hex).1 ≤ 255 ∧ (hexToRgb hex).2.1 ≤ 255 ∧
      (hexToRgb hex).2.2 ≤ 255 :=
  ⟨Nat.and_le_right, Nat.and_le_right, Nat.and_le_right⟩

theorem replaceFirstHyphen_of_not_mem (l : List Char) (h : '-' ∉ l) :
    replaceFirstHyphen l = l := by
  induction l with
  | nil => rfl
  | cons c cs ih =>
    have hc : c ≠ '-' := fun hc => h (hc ▸ List.mem_cons_self c cs)
    have hcs : '-' ∉ cs := fun hm => h (List.mem_cons_of_mem c hm)
    simp [replaceFirstHyphen, hc, ih hcs]

theorem replaceFirstHyphen_append (l₁ l₂ : List Char) (h : '-' ∉ l₁) :
    replaceFirstHyphen (l₁ ++ '-' :: l₂) = l₁ ++ ' ' :: l₂ := by
  induction l₁ with
  | nil => simp [replaceFirstHyphen]
  | cons c cs ih =>
    have hc : c ≠ '-' := fun hc => h (hc ▸ List.mem_cons_self c cs)
    have hcs : '-' ∉ cs := fun hm => h (List.mem_cons_of_mem c hm)
    simp [replaceFirstHyphen, hc, ih hcs]

/-! ## Claims -/

/-- C9: for every positive id, `pad3` left-pads the decimal representation
with `'0'` to minimum width 3, leaves representations of three or more
digits unpadded, and `pad3 7 = "007"`, `pad3 150 = "150"`,
`pad3 1024 = "1024"`. -/
theorem claim_C9_pad3 (n : Nat) (_hn : 0 < n) :
    (pad3 n).data =
      List.replicate (3 - (Nat.repr n).length) '0' ++ (Nat.repr n).data ∧
    (pad3 n).length = max 3 (Nat.repr n).length ∧
    (3 ≤ (Nat.repr n).length → pad3 n = Nat.repr n) ∧
    pad3 7 = "007" ∧ pad3 150 = "150" ∧ pad3 1024 = "1024" := by
  refine ⟨rfl, ?_, ?_, by decide, by decide, by decide⟩
  · show (List.replicate (3 - (Nat.repr n).length) '0' ++
      (Nat.repr n).data).length = max 3 (Nat.repr n).length
    rw [List.length_append, List.length_replicate]
    have : (Nat.repr n).data.length = (Nat.repr n).length := rfl
    omega
  · intro h
    have h0 : 3 - (Nat.repr n).length = 0 := by omega
    show (⟨List.replicate (3 - (Nat.repr n).length) '0'⟩ : String) ++
      Nat.repr n = Nat.repr n
    rw [h0]
    rfl

/-- C9 witness: the theorem applied at `n = 7`. -/
theorem claim_C9_pad3_witness : 0 < 7 ∧ pad3 7 = "007" :=
  ⟨by decide, (claim_C9_pad3 7 (by decide)).2.2.2.1⟩

/-- C8: every stat row's fill percentage is `100 * min 1 (value / 200)`,
never exceeds 100, and the values 45 and 220 give ratios 0.225 and 1. -/
theorem claim_C8_statFill (e : StatEntry) :
    (statRow e).fillPercent = 100 * min 1 ((e.base_stat : ℚ) / 200) ∧
    (statRow e).fillPercent ≤ 100 ∧
    statFillPercent 45 = 100 * (225 / 1000 : ℚ) ∧
    statFillPercent 220 = 100 * 1 := by
  refine ⟨?_, min_le_left _ _, by norm_num [statFillPercent], by
    norm_num [statFillPercent]⟩
  show min 100 ((e.base_stat : ℚ) / 200 * 100) =
    100 * min 1 ((e.base_stat : ℚ) / 200)
  rcases le_total ((e.base_stat : ℚ) / 200) 1 with h | h
  · rw [min_eq_right (by nlinarith), min_eq_right h]
    ring
  · rw [min_eq_left (by nlinarith), min_eq_left h]
    ring

/-- C10: a fetch that throws leaves the stored payload exactly as it was
(a previously stored payload keeps rendering), stores no error message in
any state slot, and resets the loading flag to false. -/
theorem claim_C10_failure_keeps_state (s : ScreenState) (p : PokemonDetails) :
    fetchPokemonByName s FetchResult.failure = { s with loading := false } ∧
    surfacedErrorText (fetchPokemonByName s FetchResult.failure) = none ∧
    (fetchPokemonByName s FetchResult.failure).pokemon = s.pokemon ∧
    (s.pokemon = some p →
      renderContent (fetchPokemonByName s FetchResult.failure) =
        Content.tabs p) := by
  refine ⟨rfl, rfl, rfl, ?_⟩
  intro h
  simp [fetchPokemonByName, renderContent, h]

/-- C10 witness: the theorem applied to a state holding `samplePokemon`. -/
theorem claim_C10_witness :
    (⟨some samplePokemon, true, Tab.forms⟩ : ScreenState).pokemon =
      some samplePokemon ∧
    renderContent
      (fetchPokemonByName ⟨some samplePokemon, true, Tab.forms⟩
        FetchResult.failure) = Content.tabs samplePokemon :=
  ⟨rfl,
   (claim_C10_failure_keeps_state ⟨some samplePokemon, true, Tab.forms⟩
     samplePokemon).2.2.2 rfl⟩

/-- C1 counterexample: a failing first fetch completes in a state that
surfaces no error string at all, holds no populated view-model, renders
nothing, and is identical to the idle initial state — so the screen is in
neither a success state nor an error state with a message. -/
theorem claim_C1_counterexample :
    surfacedErrorText
      (fetchPokemonByName ⟨none, true, Tab.forms⟩ FetchResult.failure) =
      none ∧
    (fetchPokemonByName ⟨none, true, Tab.forms⟩
      FetchResult.failure).pokemon = none ∧
    renderContent
      (fetchPokemonByName ⟨none, true, Tab.forms⟩ FetchResult.failure) =
      Content.blank ∧
    fetchPokemonByName ⟨none, true, Tab.forms⟩ FetchResult.failure =
      initialState :=
  ⟨rfl, rfl, rfl, rfl⟩

/-- C1 amended: on completion of any fetch the screen surfaces no error
string (failures are only logged); loading is cleared; a successful fetch
stores its payload and a failing fetch leaves the stored payload
unchanged — there is no error state. -/
theorem claim_C1_amended (s : ScreenState) (r : FetchResult) :
    surfacedErrorText (fetchPokemonByName s r) = none ∧
    (fetchPokemonByName s r).loading = false ∧
    (∀ d, r = FetchResult.success d →
      (fetchPokemonByName s r).pokemon = some d) ∧
    (r = FetchResult.failure →
      (fetchPokemonByName s r).pokemon = s.pokemon) := by
  refine ⟨rfl, ?_, ?_, ?_⟩
  · cases r <;> rfl
  · intro d hd
    rw [hd]
    rfl
  · intro hr
    rw [hr]
    rfl

/-- C1 amended witness: the theorem applied at the initial state and a
successful fetch of `samplePokemon`. -/
theorem claim_C1_witness :
    surfacedErrorText
      (fetchPokemonByName initialState
        (FetchResult.success samplePokemon)) = none ∧
    (fetchPokemonByName initialState
      (FetchResult.success samplePokemon)).pokemon = some samplePokemon :=
  ⟨(claim_C1_amended initialState (FetchResult.success samplePokemon)).1,
   (claim_C1_amended initialState
     (FetchResult.success samplePokemon)).2.2.1 samplePokemon rfl⟩

/-- C2 counterexample: in a payload typed `["fire", "mystery"]`, the badge
for the unknown type `"mystery"` takes the PRIMARY color `"#EE8130"`
(fire), not the palette's `"normal"` entry `"#A8A77A"`. -/
theorem claim_C2_counterexample :
    colorsByType "mystery" = none ∧
    colorsByType "normal" = some "#A8A77A" ∧
    (typeBadges dualTypePokemon).map TypeBadge.textColor =
      ["#EE8130", "#EE8130"] ∧
    ("#EE8130" : String) ≠ "#A8A77A" := by
  decide

/-- C2 amended: an unknown PRIMARY type's color falls back to the
`"normal"` entry `"#A8A77A"`, while an unknown badge type's color falls
back to the primary color; with empty `types` the primary type defaults to
`"normal"` (so all color derivations use the `"normal"` entry) and the
badge list stays empty. -/
theorem claim_C2_amended (p : PokemonDetails) (t : String) :
    (colorsByType (primaryType p) = none → primaryHex p = "#A8A77A") ∧
    (colorsByType t = none → badgeHex p t = primaryHex p) ∧
    (p.types = [] →
      primaryType p = "normal" ∧ primaryHex p = "#A8A77A" ∧
        typeBadges p = []) := by
  refine ⟨?_, ?_, ?_⟩
  · intro h
    simp [primaryHex, h]
  · intro h
    simp [badgeHex, h]
  · intro h
    have h1 : primaryType p = "normal" := by simp [primaryType, h]
    refine ⟨h1, ?_, by simp [typeBadges, h]⟩
    simp [primaryHex, h1]
    decide

/-- C2 amended witness: the theorem applied at the empty-types payload and
the unknown type name `"mystery"`. -/
theorem claim_C2_witness :
    colorsByType "mystery" = none ∧
    emptyTypesPokemon.types = [] ∧
    badgeHex emptyTypesPokemon "mystery" = primaryHex emptyTypesPokemon ∧
    primaryType emptyTypesPokemon = "normal" ∧
    typeBadges emptyTypesPokemon = [] :=
  ⟨by decide, rfl,
   (claim_C2_amended emptyTypesPokemon "mystery").2.1 (by decide),
   ((claim_C2_amended emptyTypesPokemon "mystery").2.2 rfl).1,
   ((claim_C2_amended emptyTypesPokemon "mystery").2.2 rfl).2.2⟩

/-- C3 counterexample: the displayed label replaces only the FIRST hyphen —
on the stat name `"a-b-c"` the code renders `"a b-c"`, not the spec's
`"a b c"` with every hyphen replaced. -/
theorem claim_C3_counterexample :
    statLabel "a-b-c" = "a b-c" ∧
    spec_replaceAllHyphens "a-b-c" = "a b c" ∧
    statLabel "a-b-c" ≠ spec_replaceAllHyphens "a-b-c" := by
  decide

/-- C3 amended: each stat row keeps the verbatim stat name as its key; the
label replaces only the first hyphen by a space (a hyphen-free name is
unchanged, and any later hyphens are kept). -/
theorem claim_C3_amended (e : StatEntry) (l₁ l₂ : List Char) :
    (statRow e).key = e.stat.name ∧
    (statRow e).label = statLabel e.stat.name ∧
    ('-' ∉ l₁ → statLabel ⟨l₁ ++ '-' :: l₂⟩ = ⟨l₁ ++ ' ' :: l₂⟩) ∧
    ('-' ∉ l₁ → statLabel ⟨l₁⟩ = ⟨l₁⟩) := by
  refine ⟨rfl, rfl, ?_, ?_⟩
  · intro h
    show (⟨replaceFirstHyphen (l₁ ++ '-' :: l₂)⟩ : String) = ⟨l₁ ++ ' ' :: l₂⟩
    rw [replaceFirstHyphen_append l₁ l₂ h]
  · intro h
    show (⟨replaceFirstHyphen l₁⟩ : String) = ⟨l₁⟩
    rw [replaceFirstHyphen_of_not_mem l₁ h]

/-- C3 amended witness: the theorem applied at the stat `hp` and the
character lists of `"s-a"`. -/
theorem claim_C3_witness :
    (statRow ⟨45, ⟨"hp"⟩⟩).key = "hp" ∧
    ('-' : Char) ∉ ['s'] ∧
    statLabel ⟨['s'] ++ '-' :: ['a']⟩ = ⟨['s'] ++ ' ' :: ['a']⟩ :=
  ⟨(claim_C3_amended ⟨45, ⟨"hp"⟩⟩ ['s'] ['a']).1, by decide,
   (claim_C3_amended ⟨45, ⟨"hp"⟩⟩ ['s'] ['a']).2.2.1 (by decide)⟩

/-- C4 counterexample: the filter tests JS truthiness, not nullity — with
`front_shiny` set to the empty string (non-null), the code's `forms` is
empty while the spec's "keep candidates with a non-null URL" keeps the
Shiny entry. -/
theorem claim_C4_counterexample :
    emptyShinyPokemon.sprites.front_shiny = some "" ∧
    forms emptyShinyPokemon = [] ∧
    spec_formsNonNull emptyShinyPokemon = [⟨"shiny", "Shiny", some ""⟩] ∧
    forms emptyShinyPokemon ≠ spec_formsNonNull emptyShinyPokemon := by
  decide

/-- C4 amended: `forms` evaluates exactly the three candidate slots in the
fixed order default/shiny/artwork with labels "Default"/"Shiny"/"Artwork",
and keeps (order preserved) only candidates whose URL is non-null AND
non-empty; hence every entry has a present non-empty URL and there are at
most three entries. -/
theorem claim_C4_amended (p : PokemonDetails) (f : FormItem) :
    formCandidates p =
      [⟨"default", "Default", p.sprites.front_default⟩,
       ⟨"shiny", "Shiny", p.sprites.front_shiny⟩,
       ⟨"art", "Artwork", officialArtworkUrl p⟩] ∧
    (forms p).Sublist (formCandidates p) ∧
    (forms p).length ≤ 3 ∧
    (f ∈ forms p → ∃ u, f.uri = some u ∧ u ≠ "") := by
  refine ⟨rfl, List.filter_sublist _, ?_, ?_⟩
  · calc (forms p).length ≤ (formCandidates p).length :=
        (List.filter_sublist _).length_le
      _ = 3 := rfl
  · intro hf
    have ht : truthyStr f.uri = true := (List.mem_filter.mp hf).2
    match hu : f.uri with
    | none => rw [hu] at ht; exact absurd ht (by decide)
    | some u =>
      refine ⟨u, rfl, ?_⟩
      rw [hu] at ht
      simpa [truthyStr] using ht

/-- C4 amended witness: the theorem applied at `samplePokemon` and its
Default entry. -/
theorem claim_C4_witness :
    (⟨"default", "Default", some "d.png"⟩ : FormItem) ∈
      forms samplePokemon ∧
    (∃ u, (⟨"default", "Default", some "d.png"⟩ : FormItem).uri = some u ∧
      u ≠ "") :=
  ⟨by decide,
   (claim_C4_amended samplePokemon ⟨"default", "Default", some "d.png"⟩).2.2.2
     (by decide)⟩

/-- C5 counterexample: with only `front_default` set — to the empty string,
which is non-null — `heroImage` is that same (empty) URL but `forms` is
empty, not a one-entry list labeled "Default". -/
theorem claim_C5_counterexample :
    emptyDefaultPokemon.sprites.front_default = some "" ∧
    emptyDefaultPokemon.sprites.front_shiny = none ∧
    officialArtworkUrl emptyDefaultPokemon = none ∧
    heroImage emptyDefaultPokemon = some "" ∧
    forms emptyDefaultPokemon = [] := by
  decide

/-- C5 amended: the hero image is the first non-null of the official
artwork URL and the default front sprite, and is `none` when both are
null; when only `front_default` is set and holds a NON-EMPTY URL, `forms`
has exactly one entry labeled "Default" and `heroImage` equals that same
URL. -/
theorem claim_C5_amended (p : PokemonDetails) (u v : String) :
    (officialArtworkUrl p = some u → heroImage p = some u) ∧
    (officialArtworkUrl p = none →
      heroImage p = p.sprites.front_default) ∧
    (officialArtworkUrl p = none → p.sprites.front_default = none →
      heroImage p = none) ∧
    (p.sprites.front_default = some v → v ≠ "" →
      p.sprites.front_shiny = none → officialArtworkUrl p = none →
      forms p = [⟨"default", "Default", some v⟩] ∧
        heroImage p = some v) := by
  refine ⟨?_, ?_, ?_, ?_⟩
  · intro h
    simp [heroImage, h]
  · intro h
    simp [heroImage, h]
  · intro h h'
    simp [heroImage, h, h']
  · intro h1 h2 h3 h4
    constructor
    · simp [forms, formCandidates, h1, h3, h4, truthyStr, h2]
    · simp [heroImage, h4, h1]

/-- C5 amended witness: the theorem applied at the payload whose only
sprite is a non-empty `front_default`. -/
theorem claim_C5_witness :
    defaultOnlyPokemon.sprites.front_default = some "d.png" ∧
    ("d.png" : String) ≠ "" ∧
    defaultOnlyPokemon.sprites.front_shiny = none ∧
    officialArtworkUrl defaultOnlyPokemon = none ∧
    forms defaultOnlyPokemon = [⟨"default", "Default", some "d.png"⟩] ∧
    heroImage defaultOnlyPokemon = some "d.png" :=
  ⟨rfl, by decide, rfl, rfl,
   ((claim_C5_amended defaultOnlyPokemon "x" "d.png").2.2.2 rfl (by decide)
     rfl rfl).1,
   ((claim_C5_amended defaultOnlyPokemon "x" "d.png").2.2.2 rfl (by decide)
     rfl rfl).2⟩

/-- C6: `pastel` maps every channel of the parsed hex color to
`round(c + (255 - c) * m)` (the spec's mix formula), and the ratios bound
in the source are 0.86 for the page background, 0.72 for the hero card,
0.6 for the chip, and 0.65 for each type badge's background. -/
theorem claim_C6_pastel_formula (hex : String) (m : ℚ) (p : PokemonDetails) :
    pastel hex m =
      rgbString (spec_mixChannel (hexToRgb hex).1 m)
        (spec_mixChannel (hexToRgb hex).2.1 m)
        (spec_mixChannel (hexToRgb hex).2.2 m) ∧
    pageBg p = pastel (primaryHex p) (86 / 100) ∧
    heroBg p = pastel (primaryHex p) (72 / 100) ∧
    chipBg p = pastel (primaryHex p) (60 / 100) ∧
    typeBadges p = p.types.map (fun e =>
      ⟨e.type'.name, badgeHex p e.type'.name,
       pastel (badgeHex p e.type'.name) (65 / 100)⟩) :=
  ⟨rfl, rfl, rfl, rfl, rfl⟩

/-- C7: for every palette color, pastelizing with ratio 0 leaves every
channel unchanged, ratio 1 gives pure white (255, 255, 255), and each
channel is monotonically non-decreasing and bounded by 255 as the ratio
grows over [0, 1]. -/
theorem claim_C7_pastel_endpoints (t hex : String)
    (_h : colorsByType t = some hex) :
    (pastelChannel (hexToRgb hex).1 0 = ((hexToRgb hex).1 : ℤ) ∧
     pastelChannel (hexToRgb hex).2.1 0 = ((hexToRgb hex).2.1 : ℤ) ∧
     pastelChannel (hexToRgb hex).2.2 0 = ((hexToRgb hex).2.2 : ℤ)) ∧
    (pastelChannel (hexToRgb hex).1 1 = 255 ∧
     pastelChannel (hexToRgb hex).2.1 1 = 255 ∧
     pastelChannel (hexToRgb hex).2.2 1 = 255) ∧
    (∀ m₁ m₂ : ℚ, 0 ≤ m₁ → m₁ ≤ m₂ → m₂ ≤ 1 →
      (pastelChannel (hexToRgb hex).1 m₁ ≤ pastelChannel (hexToRgb hex).1 m₂ ∧
        pastelChannel (hexToRgb hex).1 m₂ ≤ 255) ∧
      (pastelChannel (hexToRgb hex).2.1 m₁ ≤
          pastelChannel (hexToRgb hex).2.1 m₂ ∧
        pastelChannel (hexToRgb hex).2.1 m₂ ≤ 255) ∧
      (pastelChannel (hexToRgb hex).2.2 m₁ ≤
          pastelChannel (hexToRgb hex).2.2 m₂ ∧
        pastelChannel (hexToRgb hex).2.2 m₂ ≤ 255)) := by
  obtain ⟨hr, hg, hb⟩ := hexToRgb_le_255 hex
  refine ⟨⟨pastelChannel_zero _, pastelChannel_zero _, pastelChannel_zero _⟩,
    ⟨pastelChannel_one _, pastelChannel_one _, pastelChannel_one _⟩,
    ?_⟩
  intro m₁ m₂ _ h12 h21
  exact ⟨⟨pastelChannel_mono _ hr h12, pastelChannel_le_255 _ hr h21⟩,
    ⟨pastelChannel_mono _ hg h12, pastelChannel_le_255 _ hg h21⟩,
    ⟨pastelChannel_mono _ hb h12, pastelChannel_le_255 _ hb h21⟩⟩

/-- C7 witness: the theorem applied at the palette entry for `"fire"`, with
the monotonicity instance at ratios 0 and 1/2. -/
theorem claim_C7_witness :
    colorsByType "fire" = some "#EE8130" ∧
    pastelChannel (hexToRgb "#EE8130").1 0 = ((hexToRgb "#EE8130").1 : ℤ) ∧
    pastelChannel (hexToRgb "#EE8130").1 1 = 255 ∧
    (pastelChannel (hexToRgb "#EE8130").1 0 ≤
        pastelChannel (hexToRgb "#EE8130").1 (1 / 2) ∧
      pastelChannel (hexToRgb "#EE8130").1 (1 / 2) ≤ 255) :=
  ⟨by decide,
   (claim_C7_pastel_endpoints "fire" "#EE8130" (by decide)).1.1,
   (claim_C7_pastel_endpoints "fire" "#EE8130" (by decide)).2.1.1,
   ((claim_C7_pastel_endpoints "fire" "#EE8130" (by decide)).2.2
     0 (1 / 2) (by norm_num) (by norm_num) (by norm_num)).1⟩

end Pokedex
